import Mathlib

/-!
Verification development for the pwdbox password manager.

The TypeScript frontend (src/types/index.ts, src/utils/api.ts, the
AuthProvider context, SetupPage and DashboardPage) is embedded shallowly:
the request/response records exchanged with the Tauri backend become Lean
structures, the Web Storage session store becomes an association list, and
each React handler becomes a pure state-transition function.  The Rust
backend (only its Cargo.toml is present) is modelled from the spec where a
claim depends on it; every such definition is marked `Modelled from the
spec:` in its doc comment.
-/

namespace Pwdbox

/-! ## Boundary request/response types (src/types/index.ts) -/

/-- Request sent by `setup_app` (types/index.ts lines 2-10): the master
password plus exactly three question/answer pairs. -/
structure SetupRequest where
  master_password : String
  question1 : String
  answer1 : String
  question2 : String
  answer2 : String
  question3 : String
  answer3 : String
  deriving DecidableEq, Repr

/-- Request sent by `login` (types/index.ts lines 12-14). -/
structure LoginRequest where
  master_password : String
  deriving DecidableEq, Repr

/-- Request sent by `verify_recovery_answers` (types/index.ts lines 20-24):
exactly three answers. -/
structure RecoveryRequest where
  answer1 : String
  answer2 : String
  answer3 : String
  deriving DecidableEq, Repr

/-- Response of `setup_app`, `login`, `reset_master_password`
(types/index.ts lines 33-37).  `master_key` is optional in TS (`master_key?:
string`), hence `Option String`. -/
structure AuthResponse where
  success : Bool
  message : String
  master_key : Option String
  deriving DecidableEq, Repr

/-- Request sent by `add_password` (types/index.ts lines 40-45). -/
structure AddPasswordRequest where
  software : String
  account : String
  password : String
  master_key : String
  deriving DecidableEq, Repr

/-- Request sent by `update_password` (types/index.ts lines 47-53). -/
structure UpdatePasswordRequest where
  id : Nat
  software : String
  account : String
  password : String
  master_key : String
  deriving DecidableEq, Repr

/-- Request sent by `delete_password` (types/index.ts lines 55-57). -/
structure DeletePasswordRequest where
  id : Nat
  deriving DecidableEq, Repr

/-- Request sent by `get_all_passwords` (types/index.ts lines 59-62). -/
structure GetPasswordsRequest where
  master_key : String
  search_query : Option String
  deriving DecidableEq, Repr

/-- Request sent by `get_password` (types/index.ts lines 64-67). -/
structure DecryptPasswordRequest where
  id : Nat
  master_key : String
  deriving DecidableEq, Repr

/-- A vault entry as returned to the UI (types/index.ts lines 69-75). -/
structure PasswordEntry where
  id : Nat
  software : String
  account : String
  password : Option String
  created_at : Option String
  deriving DecidableEq, Repr

/-- Response of the password-management commands (types/index.ts lines
77-81).  The TS field `data?: any` is modelled by an `Option` over the
payload type of the particular command. -/
structure PasswordResponse (α : Type) where
  success : Bool
  message : String
  data : Option α
  deriving DecidableEq, Repr

/-! ### What a message carries across the IPC boundary

Tauri serializes every field of a request/response to JSON; the string
fields below are the string values that cross the engine/UI boundary
verbatim when the message is sent. -/

/-- String values serialized into an `AddPasswordRequest`. -/
def AddPasswordRequest.transmitted (r : AddPasswordRequest) : List String :=
  [r.software, r.account, r.password, r.master_key]

/-- String values serialized into an `UpdatePasswordRequest`. -/
def UpdatePasswordRequest.transmitted (r : UpdatePasswordRequest) : List String :=
  [r.software, r.account, r.password, r.master_key]

/-- String values serialized into a `GetPasswordsRequest`. -/
def GetPasswordsRequest.transmitted (r : GetPasswordsRequest) : List String :=
  r.master_key :: (match r.search_query with | some q => [q] | none => [])

/-- String values serialized into a `DecryptPasswordRequest`. -/
def DecryptPasswordRequest.transmitted (r : DecryptPasswordRequest) : List String :=
  [r.master_key]

/-- String values serialized into a `DeletePasswordRequest`: only the
numeric id is sent, no strings at all. -/
def DeletePasswordRequest.transmitted (_ : DeletePasswordRequest) : List String :=
  []

/-- String values serialized into an `AuthResponse`. -/
def AuthResponse.transmitted (r : AuthResponse) : List String :=
  r.message :: (match r.master_key with | some k => [k] | none => [])

/-! ## JavaScript truthiness -/

/-- JS truthiness of a `string | null` value: `null`, `undefined` and the
empty string are falsy.  Used to embed conditions such as
`response.success && response.master_key` and `if (!state.masterKey)`. -/
def isTruthyStr : Option String → Bool
  | none => false
  | some s => s != ""

/-! ## Web Storage model (sessionStorage used by api.ts secureStorage) -/

/-- The browser sessionStorage: a key/value map, modelled as an
association list in which a key occurs at most once at the front. -/
abbrev Storage : Type := List (String × String)

/-- `Storage.removeItem`: drop every entry with the given key. -/
def Storage.removeItem (sto : Storage) (k : String) : Storage :=
  List.filter (fun p => p.1 != k) sto

/-- `Storage.setItem`: bind `k` to `v`, replacing any previous binding. -/
def Storage.setItem (sto : Storage) (k v : String) : Storage :=
  (k, v) :: sto.removeItem k

/-- `Storage.getItem`: look the key up, `none` when absent (JS `null`). -/
def Storage.getItem (sto : Storage) (k : String) : Option String :=
  (List.find? (fun p => p.1 == k) sto).map (·.2)

/-- api.ts line 188: `sessionStorage.setItem('masterKey', key)`. -/
def setMasterKey (sto : Storage) (key : String) : Storage :=
  sto.setItem "masterKey" key

/-- api.ts line 192: `sessionStorage.getItem('masterKey')`. -/
def getMasterKey (sto : Storage) : Option String :=
  sto.getItem "masterKey"

/-- api.ts line 196: `sessionStorage.removeItem('masterKey')`. -/
def clearMasterKey (sto : Storage) : Storage :=
  sto.removeItem "masterKey"

/-- api.ts line 200: `sessionStorage.setItem('isAuthenticated', String(b))`. -/
def setAuthState (sto : Storage) (b : Bool) : Storage :=
  sto.setItem "isAuthenticated" (if b then "true" else "false")

/-- api.ts line 204: `sessionStorage.getItem('isAuthenticated') === 'true'`. -/
def getAuthState (sto : Storage) : Bool :=
  sto.getItem "isAuthenticated" == some "true"

/-- api.ts line 208: `sessionStorage.removeItem('isAuthenticated')`. -/
def clearAuthState (sto : Storage) : Storage :=
  sto.removeItem "isAuthenticated"

/-- api.ts lines 211-214: `clearMasterKey(); clearAuthState()`. -/
def clearAll (sto : Storage) : Storage :=
  clearAuthState (clearMasterKey sto)

/-! ## AuthProvider session state (src/unnamed/part_002) -/

/-- `AppState` (types/index.ts lines 107-113). -/
structure AppState where
  isAuthenticated : Bool
  masterKey : Option String
  isSetup : Bool
  loading : Bool
  error : Option String
  deriving DecidableEq, Repr

/-- The initial `useState` value of the AuthProvider (part_002 lines
20-26). -/
def initialAppState : AppState :=
  { isAuthenticated := false, masterKey := none, isSetup := false,
    loading := true, error := none }

/-- `AuthProvider.login` (part_002 lines 60-100) applied to the backend's
`AuthResponse`: the provider first clears `error`; when
`response.success && response.master_key` is truthy it stores the key and
the auth flag in sessionStorage and marks the state authenticated,
otherwise it only records `response.message` as the error.  Returns the
new state and the new sessionStorage contents. -/
def loginStep (st : AppState) (sto : Storage) (resp : AuthResponse) :
    AppState × Storage :=
  let st1 := { st with error := none }
  if resp.success && isTruthyStr resp.master_key then
    ({ st1 with isAuthenticated := true, masterKey := resp.master_key },
     setAuthState (setMasterKey sto (resp.master_key.getD "")) true)
  else
    ({ st1 with error := some resp.message }, sto)

/-- `AuthProvider.login` when the wrapped API call throws (part_002 lines
87-96): only `error` changes; nothing touches sessionStorage. -/
def loginThrewStep (st : AppState) (sto : Storage) (msg : String) :
    AppState × Storage :=
  ({ st with error := some msg }, sto)

/-- `AuthProvider.logout` (part_002 lines 102-112): clears all of
sessionStorage's auth keys and resets the in-memory session. -/
def logoutStep (st : AppState) (sto : Storage) : AppState × Storage :=
  ({ st with isAuthenticated := false, masterKey := none, error := none },
   clearAll sto)

/-- `initializeAuth` (part_002 lines 30-58, success path): reads the
previous auth flag and stored key back from sessionStorage; the session is
considered authenticated only when the flag was set and the stored key is
truthy. -/
def initStep (st : AppState) (sto : Storage) (isSetup : Bool) : AppState :=
  let wasAuthenticated := getAuthState sto
  let masterKey := getMasterKey sto
  { st with isSetup := isSetup,
            isAuthenticated := wasAuthenticated && isTruthyStr masterKey,
            masterKey := masterKey,
            loading := false }

/-- `initializeAuth` failure path (part_002 lines 47-54). -/
def initFailStep (st : AppState) (msg : String) : AppState :=
  { st with loading := false, error := some msg }

/-- The events that drive the AuthProvider's state transitions. -/
inductive AuthEvent where
  | init (isSetup : Bool)
  | initFail (msg : String)
  | login (resp : AuthResponse)
  | loginThrew (msg : String)
  | logout
  deriving DecidableEq, Repr

/-- One AuthProvider transition. -/
def authStep : AppState × Storage → AuthEvent → AppState × Storage
  | (st, sto), .init isSetup => (initStep st sto isSetup, sto)
  | (st, sto), .initFail msg => (initFailStep st msg, sto)
  | (st, sto), .login resp => loginStep st sto resp
  | (st, sto), .loginThrew msg => loginThrewStep st sto msg
  | (st, sto), .logout => logoutStep st sto

/-- Run the AuthProvider from its mount state over a list of events,
starting from an arbitrary pre-existing sessionStorage. -/
def runAuth (sto : Storage) (events : List AuthEvent) : AppState × Storage :=
  events.foldl authStep (initialAppState, sto)

/-! ## Backend verifier, modelled from the spec

The Rust backend that implements the Tauri commands is not present under
src/ (only src-tauri/Cargo.toml is).  The definitions in this section are
marked `Modelled from the spec:` and follow the spec's words. -/

/-- Modelled from the spec: the memory-hard KDF (Argon2 in the README),
`derive(secret, salt, params) -> key`, deterministic for identical inputs.
The model tags the derivation with its salt so that, for a fixed salt, the
output determines the secret (a collision-free idealisation of the hash). -/
def kdf (secret salt : String) : String :=
  "argon2$" ++ salt ++ "$" ++ secret

/-- Modelled from the spec: the second, domain-separated derivation of the
WorkingKey from a verified master password (spec section 4.3, so that the
verification hash and the encryption key are never the same bytes). -/
def deriveWorkingKey (password : String) : String :=
  "wk$" ++ password

/-- `MasterSecretRecord` from the spec's data model: the stored salt and
verification hash, never the key or the password. -/
structure MasterSecretRecord where
  kdf_salt : String
  verification_hash : String
  deriving DecidableEq, Repr

/-- Modelled from the spec: `setup` stores
`verification_hash = KDF(candidate_password, salt)`. -/
def setupMasterRecord (password salt : String) : MasterSecretRecord :=
  { kdf_salt := salt, verification_hash := kdf password salt }

/-- Modelled from the spec: the backend `login` command.  `unlock` derives
`h = KDF(candidate, stored_salt)` and compares it to the stored
verification hash; on match it derives the WorkingKey and returns it in
the `AuthResponse`, on mismatch it returns a generic invalid-credentials
failure with no key. -/
def backendLogin (msr : MasterSecretRecord) (candidate : String) : AuthResponse :=
  if kdf candidate msr.kdf_salt == msr.verification_hash then
    { success := true, message := "Login successful",
      master_key := some (deriveWorkingKey candidate) }
  else
    { success := false, message := "Invalid master password", master_key := none }

/-- A stored security answer from the spec's data model: `answer_salt` and
`answer_hash`; the question text plays no role in verification. -/
structure SecurityAnswerRecord where
  answer_salt : String
  answer_hash : String
  deriving DecidableEq, Repr

/-- Modelled from the spec: `verify_answers(a1, a2, a3) -> bool` recomputes
each `KDF(answer_i, salt_i)` and compares it to the stored hash, all three
required together. -/
def verifyAnswers (r1 r2 r3 : SecurityAnswerRecord) (req : RecoveryRequest) : Bool :=
  (kdf req.answer1 r1.answer_salt == r1.answer_hash) &&
  (kdf req.answer2 r2.answer_salt == r2.answer_hash) &&
  (kdf req.answer3 r3.answer_salt == r3.answer_hash)

/-! ## Authenticated cipher, modelled from the spec

The AES-GCM seal/open pair lives in the Rust backend, absent from src/.
Modelled from the spec section 4.2: `seal(key, nonce, plaintext) ->
(ciphertext, tag)` and `open(key, nonce, ciphertext, tag) -> plaintext |
AuthError`, over byte sequences.  Bytes are `Nat`s; encryption XORs the
plaintext with a keystream determined by key and nonce, and the tag is a
checksum of key, nonce and ciphertext, so any change to the sealed pair is
detected. -/

/-- Modelled from the spec: the byte of the keystream for position `i`
under the given key and nonce. -/
def keystreamByte (key nonce : List Nat) (i : Nat) : Nat :=
  ((key.foldl (fun a b => a * 131 + b + 1) 17) * 257 +
   (nonce.foldl (fun a b => a * 131 + b + 1) 29) * 193 + i * 101) % 256

/-- Modelled from the spec: the first `n` keystream bytes. -/
def keystream (key nonce : List Nat) (n : Nat) : List Nat :=
  (List.range n).map (keystreamByte key nonce)

/-- Modelled from the spec: the authentication tag over key, nonce and
ciphertext. -/
def authTag (key nonce ct : List Nat) : Nat :=
  (key ++ nonce ++ ct).foldl (fun a b => (a * 131 + b + 1) % 4294967296) 5381

/-- Modelled from the spec: `seal(key, nonce, plaintext) -> (ciphertext,
tag)`. -/
def aeadSeal (key nonce plaintext : List Nat) : List Nat × Nat :=
  let ct := List.zipWith Nat.xor plaintext (keystream key nonce plaintext.length)
  (ct, authTag key nonce ct)

/-- Modelled from the spec: `open(key, nonce, ciphertext, tag)` verifies
the tag and decrypts, failing (with `AuthError`, here `none`) whenever the
tag does not verify. -/
def aeadOpen (key nonce ct : List Nat) (tag : Nat) : Option (List Nat) :=
  if authTag key nonce ct == tag then
    some (List.zipWith Nat.xor ct (keystream key nonce ct.length))
  else
    none

/-! ## SetupPage (second file in src/src/pages/LoginPage.tsx bundle) -/

/-- `SetupFormData` (types/index.ts lines 127-136). -/
structure SetupFormData where
  masterPassword : String
  confirmPassword : String
  question1 : String
  answer1 : String
  question2 : String
  answer2 : String
  question3 : String
  answer3 : String
  deriving DecidableEq, Repr

/-- `SetupPage.validateForm` (SetupPage lines 147-172): the form passes
validation exactly when no error entry is produced — the master password
is truthy and at least 8 characters, it matches the confirmation, and all
three questions and all three answers are truthy. -/
def validateSetupForm (fd : SetupFormData) : Bool :=
  (fd.masterPassword != "") && !(fd.masterPassword.length < 8) &&
  (fd.masterPassword == fd.confirmPassword) &&
  (fd.question1 != "") && (fd.answer1 != "") &&
  (fd.question2 != "") && (fd.answer2 != "") &&
  (fd.question3 != "") && (fd.answer3 != "")

/-- `SetupPage.handleSubmit` (SetupPage lines 174-217): returns early
(submitting nothing) unless `validateForm()` succeeds, otherwise sends the
`SetupRequest` built from the form's three question/answer pairs. -/
def setupSubmit (fd : SetupFormData) : Option SetupRequest :=
  if validateSetupForm fd then
    some { master_password := fd.masterPassword,
           question1 := fd.question1, answer1 := fd.answer1,
           question2 := fd.question2, answer2 := fd.answer2,
           question3 := fd.question3, answer3 := fd.answer3 }
  else
    none

/-! ## DashboardPage handlers (src/unnamed/part_003, second file) -/

/-- The IPC calls the dashboard handlers can issue. -/
inductive IpcCall where
  | getAllPasswords (req : GetPasswordsRequest)
  | searchPasswords (query : String) (masterKey : String)
  | getPassword (req : DecryptPasswordRequest)
  deriving DecidableEq, Repr

/-- The dashboard's component state (the `useState` hooks that the three
handlers below read or write). -/
structure DashboardState where
  passwords : List PasswordEntry
  loading : Bool
  searchQuery : String
  showPassword : Option Nat
  selectedPassword : Option PasswordEntry
  deriving DecidableEq, Repr

/-- The `GetPasswordsRequest` literal built inside `loadPasswords`
(part_003 lines 510-513): `search_query: searchQuery || undefined`. -/
def buildGetPasswordsRequest (masterKey searchQuery : String) : GetPasswordsRequest :=
  { master_key := masterKey,
    search_query := if searchQuery == "" then none else some searchQuery }

/-- The `DecryptPasswordRequest` literal built inside `handleViewPassword`
(part_003 lines 550-553). -/
def buildDecryptPasswordRequest (id : Nat) (masterKey : String) : DecryptPasswordRequest :=
  { id := id, master_key := masterKey }

/-- The `AddPasswordRequest` literal built inside
`AddPasswordModal.handleSubmit` (part_003 lines 392-398). -/
def buildAddPasswordRequest (software account password masterKey : String) :
    AddPasswordRequest :=
  { software := software, account := account, password := password,
    master_key := masterKey }

/-- The `UpdatePasswordRequest` literal built inside
`EditPasswordModal.handleSubmit` (part_003 lines 1040-1047). -/
def buildUpdatePasswordRequest (id : Nat) (software account password masterKey : String) :
    UpdatePasswordRequest :=
  { id := id, software := software, account := account, password := password,
    master_key := masterKey }

/-- The argument strings of the `search_passwords` invoke call
(api.ts lines 77-79): `invoke('search_passwords', { query, masterKey })`
passes the query and the master key directly as the message payload. -/
def searchPasswordsArgs (query masterKey : String) : List String :=
  [query, masterKey]

/-- `DashboardPage.loadPasswords` (part_003 lines 504-524): returns
immediately when `state.masterKey` is falsy; otherwise issues
`get_all_passwords` and replaces the list when the response is successful
and carries data.  The second component is the trace of IPC calls made. -/
def loadPasswords (masterKey : Option String)
    (backend : GetPasswordsRequest → PasswordResponse (List PasswordEntry))
    (st : DashboardState) : DashboardState × List IpcCall :=
  if !(isTruthyStr masterKey) then (st, [])
  else
    let req := buildGetPasswordsRequest (masterKey.getD "") st.searchQuery
    let resp := backend req
    let st1 :=
      if resp.success && resp.data.isSome then
        { st with passwords := resp.data.getD [] }
      else st
    ({ st1 with loading := false }, [.getAllPasswords req])

/-- `DashboardPage.handleSearch` (part_003 lines 526-543): returns
immediately when `state.masterKey` is falsy; otherwise issues
`search_passwords(query, masterKey)`. -/
def handleSearch (masterKey : Option String)
    (backend : String → String → PasswordResponse (List PasswordEntry))
    (st : DashboardState) : DashboardState × List IpcCall :=
  if !(isTruthyStr masterKey) then (st, [])
  else
    let resp := backend st.searchQuery (masterKey.getD "")
    let st1 :=
      if resp.success && resp.data.isSome then
        { st with passwords := resp.data.getD [] }
      else st
    ({ st1 with loading := false }, [.searchPasswords st.searchQuery (masterKey.getD "")])

/-- `DashboardPage.handleViewPassword` (part_003 lines 545-563): returns
immediately when `state.masterKey` is falsy; otherwise issues
`get_password` and, on a successful response carrying data, reveals the
entry. -/
def handleViewPassword (masterKey : Option String)
    (backend : DecryptPasswordRequest → PasswordResponse PasswordEntry)
    (st : DashboardState) (id : Nat) : DashboardState × List IpcCall :=
  if !(isTruthyStr masterKey) then (st, [])
  else
    let req := buildDecryptPasswordRequest id (masterKey.getD "")
    let resp := backend req
    let st1 :=
      if resp.success && resp.data.isSome then
        { st with showPassword := some id, selectedPassword := resp.data }
      else st
    (st1, [.getPassword req])

/-! ## Error normalization and validation utilities (src/utils/api.ts) -/

/-- The `ApiError` produced at the API boundary (api.ts lines 128-133):
`handleApiCall` always constructs it with just a message, so `code` is
`none` there. -/
structure ApiError where
  message : String
  code : Option String
  deriving DecidableEq, Repr

/-- The JavaScript value a failed API call rejects with, as discriminated
by `handleApiCall`'s catch clause: a plain string, an `Error` instance
(only its `message` matters), or anything else. -/
inductive ThrownValue where
  | str (s : String)
  | jsError (message : String)
  | other
  deriving DecidableEq, Repr

/-- `handleApiCall` (api.ts lines 136-149): passes a successful result
through unchanged and rewraps any thrown value as an `ApiError` — the
thrown string itself, the `Error`'s message, or a fixed fallback text. -/
def handleApiCall {α : Type} (apiCall : Except ThrownValue α) : Except ApiError α :=
  match apiCall with
  | .ok v => .ok v
  | .error (.str s) => .error { message := s, code := none }
  | .error (.jsError m) => .error { message := m, code := none }
  | .error .other => .error { message := "An unknown error occurred", code := none }

/-- The result record of `validation.validatePassword` (api.ts line 153). -/
structure ValidationResult where
  isValid : Bool
  message : Option String
  deriving DecidableEq, Repr

/-- A JavaScript regex line terminator, the characters `.` does not match:
LF, CR, LINE SEPARATOR, PARAGRAPH SEPARATOR. -/
def isLineTerminator (c : Char) : Bool :=
  c == '\n' || c == '\r' || c == '\u2028' || c == '\u2029'

/-- The maximal line-terminator-free segments of a character sequence. -/
def jsLines : List Char → List (List Char)
  | [] => [[]]
  | c :: rest =>
    let r := jsLines rest
    if isLineTerminator c then [] :: r
    else (c :: r.headD []) :: r.tail

/-- The test `/(?=.*[a-z])(?=.*[A-Z])(?=.*\d)/.test(password)` (api.ts
line 157).  The pattern consumes nothing, so the test succeeds iff at some
start position all three lookaheads hold; `.` does not cross line
terminators, so each lookahead `(?=.*[c])` asks that the terminator-free
run from the start position contain a character of the class.  Taking the
start position at the beginning of a line, this is equivalent to: some
line-terminator-free segment of the string contains a lowercase ASCII
letter, an uppercase ASCII letter and a decimal digit. -/
def hasLowerUpperDigit (password : String) : Bool :=
  (jsLines password.data).any (fun line =>
    line.any (fun c => decide ('a' ≤ c) && decide (c ≤ 'z')) &&
    line.any (fun c => decide ('A' ≤ c) && decide (c ≤ 'Z')) &&
    line.any (fun c => decide ('0' ≤ c) && decide (c ≤ '9')))

/-- `validation.validatePassword` (api.ts lines 153-161). -/
def validatePassword (password : String) : ValidationResult :=
  if password.length < 8 then
    { isValid := false,
      message := some "Password must be at least 8 characters long" }
  else if !(hasLowerUpperDigit password) then
    { isValid := false,
      message := some "Password must contain at least one lowercase letter, one uppercase letter, and one number" }
  else
    { isValid := true, message := none }

/-! ## Helper lemmas about the storage model -/

theorem getItem_removeItem_self (sto : Storage) (k : String) :
    Storage.getItem (Storage.removeItem sto k) k = none := by
  have h : List.find? (fun p => p.1 == k)
      (List.filter (fun p => p.1 != k) sto) = none := by
    rw [List.find?_eq_none]
    intro x hx
    have hmem := List.of_mem_filter hx
    simp only [bne_iff_ne, ne_eq] at hmem
    simp [hmem]
  simp [Storage.getItem, Storage.removeItem, h]

theorem getItem_removeItem_other (sto : Storage) (k k' : String) (h : k ≠ k') :
    Storage.getItem (Storage.removeItem sto k') k = Storage.getItem sto k := by
  unfold Storage.getItem Storage.removeItem
  induction sto with
  | nil => rfl
  | cons p t ih =>
    rw [List.filter_cons]
    by_cases hp : p.1 = k'
    · have hne : (p.1 == k) = false := by
        rw [beq_eq_false_iff_ne, hp]
        exact Ne.symm h
      rw [if_neg (by simp [hp]), List.find?_cons_of_neg _ (by simp [hne]), ih]
    · rw [if_pos (by simp [hp])]
      by_cases hk : p.1 = k
      · rw [List.find?_cons_of_pos _ (by simp [hk]),
          List.find?_cons_of_pos _ (by simp [hk])]
      · rw [List.find?_cons_of_neg _ (by simp [hk]),
          List.find?_cons_of_neg _ (by simp [hk]), ih]

theorem getItem_setItem_self (sto : Storage) (k v : String) :
    Storage.getItem (Storage.setItem sto k v) k = some v := by
  unfold Storage.setItem Storage.getItem
  rw [List.find?_cons_of_pos _ (by simp)]
  rfl

theorem getItem_setItem_other (sto : Storage) (k k' v : String) (h : k ≠ k') :
    Storage.getItem (Storage.setItem sto k' v) k = Storage.getItem sto k := by
  unfold Storage.setItem
  have hstep : Storage.getItem ((k', v) :: Storage.removeItem sto k') k
      = Storage.getItem (Storage.removeItem sto k') k := by
    unfold Storage.getItem
    rw [List.find?_cons_of_neg _ (by simp [Ne.symm h])]
  rw [hstep]
  exact getItem_removeItem_other sto k k' h

/-- A string prefix cancels on the left of string append. -/
theorem string_append_left_cancel {a x y : String} (h : a ++ x = a ++ y) : x = y := by
  have hd : (a ++ x).data = (a ++ y).data := congrArg String.data h
  rw [String.data_append, String.data_append] at hd
  exact String.ext (List.append_cancel_left hd)

/-- For a fixed salt, the modelled KDF is injective in the secret. -/
theorem kdf_injective {secret secret' salt : String}
    (h : kdf secret salt = kdf secret' salt) : secret = secret' := by
  unfold kdf at h
  exact string_append_left_cancel h

/-- XOR-ing twice with the same keystream restores the plaintext. -/
theorem zipWith_xor_cancel :
    ∀ (M ks : List Nat), M.length ≤ ks.length →
      List.zipWith Nat.xor (List.zipWith Nat.xor M ks) ks = M := by
  intro M
  induction M with
  | nil => intro ks _; simp
  | cons m M ih =>
    intro ks h
    cases ks with
    | nil => simp at h
    | cons k ks =>
      simp only [List.zipWith]
      rw [ih ks (by simpa using h)]
      congr 1
      exact Nat.xor_cancel_right k m

/-- The first `n` keystream bytes are `n` bytes. -/
theorem keystream_length (key nonce : List Nat) (n : Nat) :
    (keystream key nonce n).length = n := by
  simp [keystream]

/-! ## Invariant of the AuthProvider state machine -/

/-- The session-state invariant: an authenticated session holds a key. -/
def AuthInv (st : AppState) : Prop :=
  st.isAuthenticated = true → st.masterKey ≠ none

/-- A truthy optional string is not `none`. -/
theorem isTruthyStr_ne_none {mk : Option String} (h : isTruthyStr mk = true) :
    mk ≠ none := by
  cases mk with
  | none => simp [isTruthyStr] at h
  | some k => exact fun hc => Option.noConfusion hc

/-- Every AuthProvider transition preserves the session-state invariant. -/
theorem authStep_preserves_inv (st : AppState) (sto : Storage) (e : AuthEvent)
    (h : AuthInv st) : AuthInv (authStep (st, sto) e).1 := by
  cases e with
  | init isSetup =>
    intro hauth
    simp only [authStep, initStep] at hauth ⊢
    exact isTruthyStr_ne_none ((Bool.and_eq_true _ _).mp hauth).2
  | initFail msg =>
    intro hauth
    simp only [authStep, initFailStep] at hauth ⊢
    exact h hauth
  | login resp =>
    intro hauth
    simp only [authStep, loginStep] at hauth ⊢
    by_cases hc : (resp.success && isTruthyStr resp.master_key) = true
    · rw [if_pos hc] at hauth ⊢
      exact isTruthyStr_ne_none ((Bool.and_eq_true _ _).mp hc).2
    · rw [if_neg hc] at hauth ⊢
      exact h hauth
  | loginThrew msg =>
    intro hauth
    simp only [authStep, loginThrewStep] at hauth ⊢
    exact h hauth
  | logout =>
    intro hauth
    simp only [authStep, logoutStep] at hauth
    exact absurd hauth (by simp)

/-- Folding AuthProvider transitions preserves the invariant. -/
theorem foldl_authStep_inv (events : List AuthEvent) :
    ∀ p : AppState × Storage, AuthInv p.1 →
      AuthInv (events.foldl authStep p).1 := by
  induction events with
  | nil => intro p h; exact h
  | cons e es ih =>
    intro p h
    exact ih (authStep p e) (authStep_preserves_inv p.1 p.2 e h)

/-! ## Claims -/

/-- C1, refuted: the claim says the values exchanged across the engine/UI
boundary never contain a derived key, but the `add_password` request built
by the dashboard's AddPasswordModal embeds the session's derived master
key verbatim in its `master_key` field, so the key is among the strings
the request transmits across the boundary. -/
theorem c1_boundary_counterexample :
    (buildAddPasswordRequest "example" "user" "s3cr3t" "sessionDerivedKey").master_key
        = "sessionDerivedKey"
    ∧ "sessionDerivedKey" ∈
        (buildAddPasswordRequest "example" "user" "s3cr3t" "sessionDerivedKey").transmitted := by
  exact ⟨rfl, by decide⟩

/-- C1 (amended): key material does cross the engine/UI boundary. The
requests built for the add, update, get-all, get-one and search record
operations each carry the session's derived master key in their
`master_key` field / message payload (hence among their transmitted
strings), a successful auth response transmits the key it returns, while
the delete request transmits no strings at all. -/
theorem key_material_crosses_boundary
    (k software account password q msg : String) (id : Nat) :
    (buildAddPasswordRequest software account password k).master_key = k
    ∧ k ∈ (buildAddPasswordRequest software account password k).transmitted
    ∧ (buildUpdatePasswordRequest id software account password k).master_key = k
    ∧ k ∈ (buildUpdatePasswordRequest id software account password k).transmitted
    ∧ (buildGetPasswordsRequest k q).master_key = k
    ∧ k ∈ (buildGetPasswordsRequest k q).transmitted
    ∧ (buildDecryptPasswordRequest id k).master_key = k
    ∧ k ∈ DecryptPasswordRequest.transmitted (buildDecryptPasswordRequest id k)
    ∧ k ∈ searchPasswordsArgs q k
    ∧ k ∈ AuthResponse.transmitted { success := true, message := msg, master_key := some k }
    ∧ DeletePasswordRequest.transmitted { id := id } = [] := by
  refine ⟨rfl, ?_, rfl, ?_, rfl, ?_, rfl, ?_, ?_, ?_, rfl⟩
  · simp [buildAddPasswordRequest, AddPasswordRequest.transmitted]
  · simp [buildUpdatePasswordRequest, UpdatePasswordRequest.transmitted]
  · simp [buildGetPasswordsRequest, GetPasswordsRequest.transmitted]
  · simp [buildDecryptPasswordRequest, DecryptPasswordRequest.transmitted]
  · simp [searchPasswordsArgs]
  · simp [AuthResponse.transmitted]

/-- C2, refuted: the claim says the derived key is never written to any
storage medium, but a successful login stores it in sessionStorage under
the key `masterKey` (part_002 line 71, api.ts line 188): starting from the
mount state and an empty sessionStorage, after a successful login response
carrying the key, sessionStorage yields that very key. -/
theorem c2_storage_counterexample :
    getMasterKey (loginStep initialAppState []
      { success := true, message := "Login successful",
        master_key := some "sessionDerivedKey" }).2 = some "sessionDerivedKey" := by
  decide

/-- C2 (amended): on every successful login the derived key is written to
sessionStorage (key `masterKey`) and held in the in-memory session state;
it stays there until logout, which removes it from sessionStorage. -/
theorem login_writes_key_to_storage (st : AppState) (sto : Storage)
    (k msg : String) (hk : k ≠ "") :
    getMasterKey (loginStep st sto
        { success := true, message := msg, master_key := some k }).2 = some k
    ∧ (loginStep st sto
        { success := true, message := msg, master_key := some k }).1.masterKey = some k
    ∧ getMasterKey
        (logoutStep
          (loginStep st sto { success := true, message := msg, master_key := some k }).1
          (loginStep st sto { success := true, message := msg, master_key := some k }).2).2
        = none := by
  have hcond : ((true : Bool) && isTruthyStr (some k)) = true := by
    simp [isTruthyStr, hk]
  constructor
  · simp only [loginStep, hcond, if_pos]
    show Storage.getItem (setAuthState (setMasterKey sto k) true) "masterKey" = some k
    unfold setAuthState setMasterKey
    rw [getItem_setItem_other _ _ _ _ (by decide)]
    exact getItem_setItem_self sto "masterKey" k
  constructor
  · simp [loginStep, hcond]
  · show Storage.getItem (clearAll _) "masterKey" = none
    unfold clearAll clearAuthState clearMasterKey
    rw [getItem_removeItem_other _ _ _ (by decide)]
    exact getItem_removeItem_self _ "masterKey"

/-- Witness for C2's amended theorem at a concrete login. -/
theorem login_writes_key_to_storage_witness :
    getMasterKey (loginStep initialAppState []
        { success := true, message := "ok", master_key := some "wk0" }).2 = some "wk0" :=
  (login_writes_key_to_storage initialAppState [] "wk0" "ok" (by decide)).1

/-- C3: a login attempt with a wrong master password yields a generic
unsuccessful response carrying no key, and the AuthProvider leaves the
session locked: `isAuthenticated` stays false, `masterKey` stays null,
sessionStorage is untouched, and only the error message is recorded. The
backend comparison is modelled from the spec (`backendLogin`). -/
theorem wrong_password_leaves_locked (configured candidate salt : String)
    (st : AppState) (sto : Storage)
    (hne : candidate ≠ configured)
    (hauth : st.isAuthenticated = false) (hkey : st.masterKey = none) :
    (backendLogin (setupMasterRecord configured salt) candidate).success = false
    ∧ (backendLogin (setupMasterRecord configured salt) candidate).master_key = none
    ∧ (loginStep st sto (backendLogin (setupMasterRecord configured salt) candidate)).1.isAuthenticated = false
    ∧ (loginStep st sto (backendLogin (setupMasterRecord configured salt) candidate)).1.masterKey = none
    ∧ (loginStep st sto (backendLogin (setupMasterRecord configured salt) candidate)).2 = sto := by
  have hkdf : (kdf candidate salt == kdf configured salt) = false := by
    rw [beq_eq_false_iff_ne]
    exact fun hc => hne (kdf_injective hc)
  have hresp : backendLogin (setupMasterRecord configured salt) candidate
      = { success := false, message := "Invalid master password", master_key := none } := by
    unfold backendLogin setupMasterRecord
    simp [hkdf]
  rw [hresp]
  refine ⟨rfl, rfl, ?_, ?_, ?_⟩ <;> simp [loginStep, isTruthyStr, hauth, hkey]

/-- Witness for C3 at a concrete wrong-password attempt. -/
theorem wrong_password_leaves_locked_witness :
    (backendLogin (setupMasterRecord "Tr0ub4dor!" "salt1") "guess").success = false
    ∧ (loginStep initialAppState []
        (backendLogin (setupMasterRecord "Tr0ub4dor!" "salt1") "guess")).1.isAuthenticated = false :=
  ⟨(wrong_password_leaves_locked "Tr0ub4dor!" "guess" "salt1" initialAppState []
      (by decide) rfl rfl).1,
   (wrong_password_leaves_locked "Tr0ub4dor!" "guess" "salt1" initialAppState []
      (by decide) rfl rfl).2.2.1⟩

/-- C4: logout discards the key immediately — the stored master key and
auth flag are removed from sessionStorage and the in-memory state becomes
locked with `isAuthenticated` false, `masterKey` null and the error
cleared. -/
theorem logout_discards_key (st : AppState) (sto : Storage) :
    (logoutStep st sto).1.isAuthenticated = false
    ∧ (logoutStep st sto).1.masterKey = none
    ∧ (logoutStep st sto).1.error = none
    ∧ getMasterKey (logoutStep st sto).2 = none
    ∧ Storage.getItem (logoutStep st sto).2 "isAuthenticated" = none
    ∧ getAuthState (logoutStep st sto).2 = false := by
  refine ⟨rfl, rfl, rfl, ?_, ?_, ?_⟩
  · show Storage.getItem (clearAll sto) "masterKey" = none
    unfold clearAll clearAuthState clearMasterKey
    rw [getItem_removeItem_other _ _ _ (by decide)]
    exact getItem_removeItem_self _ "masterKey"
  · show Storage.getItem (clearAll sto) "isAuthenticated" = none
    unfold clearAll clearAuthState
    exact getItem_removeItem_self _ "isAuthenticated"
  · show (Storage.getItem (clearAll sto) "isAuthenticated" == some "true") = false
    unfold clearAll clearAuthState
    rw [getItem_removeItem_self _ "isAuthenticated"]
    rfl

/-- C5: every record operation fails closed without the WorkingKey — when
the session holds no master key, `loadPasswords`, `handleSearch` and
`handleViewPassword` return immediately: no IPC call is issued and the
dashboard state is unchanged. -/
theorem locked_operations_fail_closed
    (b1 : GetPasswordsRequest → PasswordResponse (List PasswordEntry))
    (b2 : String → String → PasswordResponse (List PasswordEntry))
    (b3 : DecryptPasswordRequest → PasswordResponse PasswordEntry)
    (st : DashboardState) (id : Nat) :
    loadPasswords none b1 st = (st, [])
    ∧ handleSearch none b2 st = (st, [])
    ∧ handleViewPassword none b3 st id = (st, []) :=
  ⟨rfl, rfl, rfl⟩

/-- C6: the system uses exactly three security questions. The setup form
submits a `SetupRequest` (which structurally holds exactly three
question/answer pairs) only when all three questions and all three answers
are non-empty, and the recovery verification (modelled from the spec)
accepts exactly the three answers of a `RecoveryRequest` and succeeds iff
every one of the three matches its stored hash — a partial set never
authorizes recovery. -/
theorem three_questions_all_required :
    (∀ fd : SetupFormData, ∀ req : SetupRequest, setupSubmit fd = some req →
      req.question1 ≠ "" ∧ req.answer1 ≠ ""
      ∧ req.question2 ≠ "" ∧ req.answer2 ≠ ""
      ∧ req.question3 ≠ "" ∧ req.answer3 ≠ "")
    ∧ (∀ (r1 r2 r3 : SecurityAnswerRecord) (req : RecoveryRequest),
        verifyAnswers r1 r2 r3 req = true ↔
          (kdf req.answer1 r1.answer_salt = r1.answer_hash
           ∧ kdf req.answer2 r2.answer_salt = r2.answer_hash
           ∧ kdf req.answer3 r3.answer_salt = r3.answer_hash)) := by
  constructor
  · intro fd req h
    unfold setupSubmit at h
    by_cases hv : validateSetupForm fd = true
    · rw [if_pos hv] at h
      injection h with h
      subst h
      unfold validateSetupForm at hv
      simp only [Bool.and_eq_true, bne_iff_ne, ne_eq] at hv
      obtain ⟨⟨⟨⟨⟨⟨⟨⟨_, _⟩, _⟩, hq1⟩, ha1⟩, hq2⟩, ha2⟩, hq3⟩, ha3⟩ := hv
      exact ⟨hq1, ha1, hq2, ha2, hq3, ha3⟩
    · rw [if_neg hv] at h
      exact absurd h (by simp)
  · intro r1 r2 r3 req
    unfold verifyAnswers
    simp [Bool.and_eq_true, and_assoc]

/-- Witness for C6 at a concrete fully-filled setup form. -/
theorem three_questions_all_required_witness :
    setupSubmit
        { masterPassword := "Tr0ub4dor!", confirmPassword := "Tr0ub4dor!",
          question1 := "q1", answer1 := "a1", question2 := "q2", answer2 := "a2",
          question3 := "q3", answer3 := "a3" }
      = some { master_password := "Tr0ub4dor!",
               question1 := "q1", answer1 := "a1", question2 := "q2", answer2 := "a2",
               question3 := "q3", answer3 := "a3" }
    ∧ (SetupRequest.question1
        { master_password := "Tr0ub4dor!",
          question1 := "q1", answer1 := "a1", question2 := "q2", answer2 := "a2",
          question3 := "q3", answer3 := "a3" } ≠ ""
       ∧ SetupRequest.answer1
        { master_password := "Tr0ub4dor!",
          question1 := "q1", answer1 := "a1", question2 := "q2", answer2 := "a2",
          question3 := "q3", answer3 := "a3" } ≠ "") := by
  refine ⟨by decide, ?_⟩
  have h := three_questions_all_required.1
      { masterPassword := "Tr0ub4dor!", confirmPassword := "Tr0ub4dor!",
        question1 := "q1", answer1 := "a1", question2 := "q2", answer2 := "a2",
        question3 := "q3", answer3 := "a3" }
      { master_password := "Tr0ub4dor!",
        question1 := "q1", answer1 := "a1", question2 := "q2", answer2 := "a2",
        question3 := "q3", answer3 := "a3" }
      (by decide)
  exact ⟨h.1, h.2.1⟩

/-- C7: authenticated-cipher round-trip (cipher modelled from the spec):
for every key, nonce and plaintext, opening the (ciphertext, tag) pair
produced by sealing the plaintext under that key and nonce returns exactly
the plaintext. -/
theorem aead_roundtrip (key nonce M : List Nat) :
    aeadOpen key nonce (aeadSeal key nonce M).1 (aeadSeal key nonce M).2 = some M := by
  unfold aeadSeal aeadOpen
  simp only []
  rw [if_pos (by simp)]
  have hlen : (List.zipWith Nat.xor M (keystream key nonce M.length)).length
      = M.length := by
    simp [keystream_length, List.length_zipWith]
  rw [hlen]
  exact congrArg some
    (zipWith_xor_cancel M _ (le_of_eq (keystream_length key nonce M.length).symm))

/-- C8: in every state reachable through the AuthProvider's transitions
(mount initialization from any pre-existing sessionStorage, successful or
failed or throwing login, logout), `isAuthenticated = true` implies the
session holds a master key. -/
theorem authenticated_implies_key (sto : Storage) (events : List AuthEvent)
    (h : (runAuth sto events).1.isAuthenticated = true) :
    (runAuth sto events).1.masterKey ≠ none := by
  have h0 : AuthInv initialAppState := by
    intro hc
    exact absurd hc (by simp [initialAppState])
  exact foldl_authStep_inv events (initialAppState, sto) h0 h

/-- Witness for C8 with a concrete storage and an init transition that
restores an authenticated session. -/
theorem authenticated_implies_key_witness :
    (runAuth [("isAuthenticated", "true"), ("masterKey", "wk0")]
        [AuthEvent.init true]).1.isAuthenticated = true
    ∧ (runAuth [("isAuthenticated", "true"), ("masterKey", "wk0")]
        [AuthEvent.init true]).1.masterKey ≠ none :=
  ⟨by decide,
   authenticated_implies_key [("isAuthenticated", "true"), ("masterKey", "wk0")]
     [AuthEvent.init true] (by decide)⟩

/-- The character-class test behind the regex, in propositional form. -/
theorem hasLowerUpperDigit_iff (p : String) :
    hasLowerUpperDigit p = true ↔
      ∃ line ∈ jsLines p.data,
        (∃ c ∈ line, 'a' ≤ c ∧ c ≤ 'z')
        ∧ (∃ c ∈ line, 'A' ≤ c ∧ c ≤ 'Z')
        ∧ (∃ c ∈ line, '0' ≤ c ∧ c ≤ '9') := by
  unfold hasLowerUpperDigit
  simp [List.any_eq_true, Bool.and_eq_true, decide_eq_true_eq, and_assoc]

/-- C9, refuted: the claim says `validatePassword` accepts every string of
length at least 8 containing a lowercase letter, an uppercase letter and a
digit, but the JS regex's `.` does not cross line terminators, so the
lookaheads must all be satisfied within one line: the 13-character string
"Abcdefgh\n1234" contains all three character classes yet is rejected. -/
theorem c9_validatePassword_counterexample :
    (validatePassword "Abcdefgh\n1234").isValid = false
    ∧ 8 ≤ ("Abcdefgh\n1234" : String).length
    ∧ (∃ c ∈ ("Abcdefgh\n1234" : String).data, 'a' ≤ c ∧ c ≤ 'z')
    ∧ (∃ c ∈ ("Abcdefgh\n1234" : String).data, 'A' ≤ c ∧ c ≤ 'Z')
    ∧ (∃ c ∈ ("Abcdefgh\n1234" : String).data, '0' ≤ c ∧ c ≤ '9') := by
  refine ⟨by decide, by decide, ?_, ?_, ?_⟩ <;> decide

/-- C9 (amended): `validatePassword` returns `isValid` true iff the
password has length at least 8 and some line-terminator-free segment of it
contains at least one lowercase ASCII letter, one uppercase ASCII letter
and one decimal digit together; otherwise it returns `isValid` false with
a message. -/
theorem validatePassword_spec (p : String) :
    ((validatePassword p).isValid = true ↔
      (8 ≤ p.length ∧ ∃ line ∈ jsLines p.data,
        (∃ c ∈ line, 'a' ≤ c ∧ c ≤ 'z')
        ∧ (∃ c ∈ line, 'A' ≤ c ∧ c ≤ 'Z')
        ∧ (∃ c ∈ line, '0' ≤ c ∧ c ≤ '9')))
    ∧ ((validatePassword p).isValid = false →
        ((validatePassword p).message).isSome = true) := by
  constructor
  · unfold validatePassword
    by_cases h8 : p.length < 8
    · rw [if_pos h8]
      simp only [show (false = true) ↔ False by simp, false_iff]
      intro hc
      omega
    · rw [if_neg h8]
      by_cases hr : hasLowerUpperDigit p = true
      · rw [if_neg (by simp [hr])]
        simp only [show (true = true) ↔ True by simp, true_iff]
        exact ⟨by omega, (hasLowerUpperDigit_iff p).mp hr⟩
      · rw [if_pos (by simp [Bool.eq_false_iff.mpr hr])]
        simp only [show (false = true) ↔ False by simp, false_iff]
        intro hc
        exact hr ((hasLowerUpperDigit_iff p).mpr hc.2)
  · unfold validatePassword
    by_cases h8 : p.length < 8
    · rw [if_pos h8]
      intro _
      rfl
    · rw [if_neg h8]
      by_cases hr : hasLowerUpperDigit p = true
      · rw [if_neg (by simp [hr])]
        intro hc
        exact absurd hc (by simp)
      · rw [if_pos (by simp [Bool.eq_false_iff.mpr hr])]
        intro _
        rfl

/-- Witness for C9's amended theorem at a concrete rejected password. -/
theorem validatePassword_spec_witness :
    (validatePassword "short").isValid = false
    ∧ ((validatePassword "short").message).isSome = true :=
  ⟨by decide, (validatePassword_spec "short").2 (by decide)⟩

/-- C10: `handleApiCall` passes every successful value through unchanged,
never turns a failure into a success, and rewraps every thrown value as an
`ApiError` whose message is the thrown string, the thrown `Error`'s
message, or the fixed fallback text for any other thrown value. -/
theorem handleApiCall_normalizes {α : Type} (r : Except ThrownValue α) :
    (∀ v : α, r = .ok v → handleApiCall r = .ok v)
    ∧ (∀ v : α, handleApiCall r = .ok v → r = .ok v)
    ∧ (∀ s : String, r = .error (.str s) →
        handleApiCall r = .error { message := s, code := none })
    ∧ (∀ m : String, r = .error (.jsError m) →
        handleApiCall r = .error { message := m, code := none })
    ∧ (r = .error .other →
        handleApiCall r = .error { message := "An unknown error occurred", code := none }) := by
  refine ⟨?_, ?_, ?_, ?_, ?_⟩
  · intro v h
    subst h
    rfl
  · intro v h
    cases r with
    | ok w => simpa [handleApiCall] using h
    | error e => cases e <;> simp [handleApiCall] at h
  · intro s h
    subst h
    rfl
  · intro m h
    subst h
    rfl
  · intro h
    subst h
    rfl

/-- Witness for C10 at a concrete thrown string. -/
theorem handleApiCall_normalizes_witness :
    handleApiCall (Except.error (ThrownValue.str "boom") : Except ThrownValue Nat)
      = Except.error { message := "boom", code := none } :=
  (handleApiCall_normalizes (Except.error (ThrownValue.str "boom"))).2.2.1 "boom" rfl

end Pwdbox
